import Mathlib

/-!
Verification development for the live-voice session of the `aura` repository.

The live session lives in `src/components/VideoView.tsx` (the `LiveView`
component): microphone capture frames are quantized to 16-bit PCM and sent
outbound; inbound messages carry base64 PCM audio, transcription fragments,
an interruption flag and a turn-complete flag; playback is scheduled against
the output audio clock through the mutable refs `nextStartTimeRef`,
`sourcesRef` and `transcriptionRef`.

Samples are modelled as rationals (the JavaScript arithmetic used here —
multiplication and division by the power of two 32768 — is exact on binary
floating point, so ℚ is a faithful carrier), bytes as naturals below 256,
and the event handlers as pure functions on an explicit session state.
The helpers of `utils/audioUtils.ts` (`encode`, `decode`, `decodeAudioData`)
are not part of the provided sources and are modelled from the spec.
-/

namespace Aura

/-! ## PCM codec -/

/-- Truncation toward zero on rationals, as JavaScript's ToIntegerOrInfinity
performs on a Number before integer conversion. -/
def truncQ (q : ℚ) : ℤ := if 0 ≤ q then ⌊q⌋ else ⌈q⌉

/-- JavaScript ToInt16 applied to an already-truncated integer: reduce
modulo 2^16 into the signed range [-32768, 32767]. -/
def toInt16 (t : ℤ) : ℤ :=
  if t % 65536 < 32768 then t % 65536 else t % 65536 - 65536

/-- Embeds the capture quantization loop of `onaudioprocess`
(VideoView.tsx lines 245-248): the assignment of the JavaScript Number
`inputData[i] * 32768` into an `Int16Array` slot, which truncates toward
zero and wraps modulo 2^16. -/
def quantize (x : ℚ) : ℤ := toInt16 (truncQ (x * 32768))

/-- Little-endian byte pair of a signed 16-bit integer, as produced by
viewing the `Int16Array` buffer through `new Uint8Array(int16.buffer)`
on a little-endian host (VideoView.tsx line 250). -/
def int16LE (i : ℤ) : List ℕ :=
  [(i % 65536).toNat % 256, (i % 65536).toNat / 256]

/-- Signed reinterpretation of an unsigned 16-bit value. -/
def u2i (u : ℕ) : ℤ := if u < 32768 then (u : ℤ) else (u : ℤ) - 65536

/-- Base64 alphabet, position `n` holding the character for sextet `n`. -/
def b64alphabet : List Char :=
  "ABCDEFGHIJKLMNOPQRSTUVWXYZabcdefghijklmnopqrstuvwxyz0123456789+/".toList

/-- Character for a sextet value. -/
def sextetChar (n : ℕ) : Char := b64alphabet.getD n '?'

/-- Sextet value of a base64 character, `none` when the character is not in
the alphabet (in particular for the padding character). -/
def charSextet (c : Char) : Option ℕ :=
  let i := b64alphabet.indexOf c
  if i < 64 then some i else none

/-- Modelled from the spec: the `encode` helper of `utils/audioUtils.ts`
(absent from the provided sources) — the reversible byte-to-text transform,
standard base64 with padding. -/
def b64encode : List ℕ → List Char
  | [] => []
  | [a] =>
      [sextetChar (a / 4), sextetChar (a % 4 * 16), '=', '=']
  | [a, b] =>
      [sextetChar (a / 4), sextetChar (a % 4 * 16 + b / 16),
       sextetChar (b % 16 * 4), '=']
  | a :: b :: c :: rest =>
      sextetChar (a / 4) :: sextetChar (a % 4 * 16 + b / 16) ::
      sextetChar (b % 16 * 4 + c / 64) :: sextetChar (c % 64) :: b64encode rest

/-- Modelled from the spec: the `decode` helper of `utils/audioUtils.ts`
(absent from the provided sources) — `decodeInbound`, reversing the base64
text transform only and yielding the raw byte sequence. -/
def b64decode : List Char → Option (List ℕ)
  | [] => some []
  | c0 :: c1 :: c2 :: c3 :: rest =>
      match charSextet c0, charSextet c1 with
      | some x0, some x1 =>
          if c2 = '=' ∧ c3 = '=' ∧ rest = [] then
            some [x0 * 4 + x1 / 16]
          else if c3 = '=' ∧ rest = [] then
            match charSextet c2 with
            | some x2 => some [x0 * 4 + x1 / 16, x1 % 16 * 16 + x2 / 4]
            | none => none
          else
            match charSextet c2, charSextet c3, b64decode rest with
            | some x2, some x3, some tail =>
                some ((x0 * 4 + x1 / 16) :: (x1 % 16 * 16 + x2 / 4) ::
                      (x2 % 4 * 64 + x3) :: tail)
            | _, _, _ => none
      | _, _ => none
  | _ => none

/-- Pair up a byte list two by two; `none` when the length is odd. -/
def pairBytes : List ℕ → Option (List (ℕ × ℕ))
  | [] => some []
  | [_] => none
  | a :: b :: rest => (pairBytes rest).map (fun l => (a, b) :: l)

/-- Modelled from the spec: the `decodeAudioData` helper of
`utils/audioUtils.ts` (absent from the provided sources) —
`reconstructAudio`: reinterpret bytes as little-endian signed 16-bit
samples and normalize each to a rational in [-1, 1); fails (the
`MalformedAudioData` case) when the byte length is not a multiple of 2. -/
def reconstructAudio (bs : List ℕ) : Option (List ℚ) :=
  (pairBytes bs).map (fun l => l.map (fun p => (u2i (p.1 + 256 * p.2) : ℚ) / 32768))

/-- Embeds the outbound encoding of `onaudioprocess` (VideoView.tsx lines
243-251): quantize every captured sample to int16, lay the buffer out
little-endian, base64-encode. -/
def encodeOutbound (samples : List ℚ) : List Char :=
  b64encode (samples.flatMap (fun x => int16LE (quantize x)))

/-- Full inbound reconstruction of an outbound-encoded frame:
`reconstructAudio` of `decodeInbound` of the `encodeOutbound` text. -/
def roundTrip (samples : List ℚ) : Option (List ℚ) :=
  (b64decode (encodeOutbound samples)).bind reconstructAudio

/-- Follows the spec's words, for comparison with the source's `quantize`:
`round(sample * 32768)`, clamped to the 16-bit range. -/
def specQuantizeRoundClamp (x : ℚ) : ℤ :=
  max (-32768) (min 32767 (round (x * 32768)))

/-! ## Live-session state machine

The `LiveView` component keeps its live-call state in React refs:
`sessionRef` (the open remote channel, nullable), `audioContextRef` (the
output `AudioContext`, nullable), `nextStartTimeRef` (the playback cursor),
`sourcesRef` (the set of scheduled `AudioBufferSourceNode`s), and
`transcriptionRef` (the per-speaker accumulation buffers), plus the React
state `isActive` and `transcriptions` (the displayed turn history).
The handlers below are embedded as pure functions on this state; one
`onmessage` invocation is modelled as atomic, matching the spec's strict
in-arrival-order message handling. -/

inductive Role
  | user
  | model
deriving DecidableEq

/-- Per-speaker accumulation buffers, `transcriptionRef.current`. -/
structure Transcription where
  user : String
  model : String
deriving DecidableEq

/-- One scheduled playback: an `AudioBufferSourceNode` together with the
start time passed to `source.start` and its buffer duration. -/
structure Source where
  sid : ℕ
  startTime : ℚ
  duration : ℚ
deriving DecidableEq

/-- The observable state of the `LiveView` live session. `sessionOpen`
models `sessionRef.current` being non-null (the remote channel held),
`audioContextOpen` models `audioContextRef.current` being non-null,
`micHeld` the `getUserMedia` stream being live, `captureConnected` the
`scriptProcessor` graph being wired (so `onaudioprocess` keeps firing),
`outboundSends` the number of `sendRealtimeInput` calls made, and
`stopped` the ids of sources on which `stop()` was called early. -/
structure LiveState where
  sessionOpen : Bool
  audioContextOpen : Bool
  isActive : Bool
  micHeld : Bool
  captureConnected : Bool
  outboundSends : ℕ
  nextStartTime : ℚ
  sources : List Source
  stopped : List ℕ
  transcription : Transcription
  transcriptions : List (Role × String)
deriving DecidableEq

/-- State before any session is started: all refs null, cursor zero,
buffers empty. -/
def initialState : LiveState :=
  ⟨false, false, false, false, false, 0, 0, [], [], ⟨"", ""⟩, []⟩

/-- One inbound `LiveServerMessage`, reduced to the fields `onmessage`
inspects. The audio part is carried as the decoded frame's sample count at
24 kHz (`audioBuffer.duration = frameCount / 24000`); the base64-to-samples
step is the codec embedded above. -/
structure ServerMessage where
  audioFrameCount : Option ℕ
  interrupted : Bool
  inputTranscription : Option String
  outputTranscription : Option String
  turnComplete : Bool

/-- Start time the scheduler assigns to a frame arriving now:
`Math.max(nextStartTimeRef.current, outputAudioContext.currentTime)`
(VideoView.tsx line 265). -/
def startTime (s : LiveState) (now : ℚ) : ℚ :=
  max s.nextStartTime now

/-- Embeds the audio branch of `onmessage` (VideoView.tsx lines 263-273):
raise the cursor to the clock, start the source at the cursor, advance the
cursor by the buffer duration, add the source to the active set. -/
def scheduleAudio (s : LiveState) (now : ℚ) (dur : ℚ) (sid : ℕ) : LiveState :=
  { s with
    nextStartTime := startTime s now + dur,
    sources := s.sources ++ [⟨sid, startTime s now, dur⟩] }

/-- Embeds the interrupted branch of `onmessage` (VideoView.tsx lines
276-280): stop every active source, clear the set, zero the cursor. -/
def interruptPlayback (s : LiveState) : LiveState :=
  { s with
    stopped := s.stopped ++ s.sources.map (fun src => src.sid),
    sources := [],
    nextStartTime := 0 }

/-- Embeds the `source.onended` callback (VideoView.tsx line 273): a
finished source removes itself from the active set. -/
def onEnded (s : LiveState) (sid : ℕ) : LiveState :=
  { s with sources := s.sources.filter (fun src => src.sid ≠ sid) }

/-- Embeds the turn-complete branch of `onmessage` (VideoView.tsx lines
288-295): when either buffer is non-empty (the JavaScript truthiness test
`user || model`), append the user and model texts as one turn to the
history; clear both buffers in every case. -/
def turnCompleteHandler (s : LiveState) : LiveState :=
  let u := s.transcription.user
  let m := s.transcription.model
  let s1 :=
    if u ≠ "" ∨ m ≠ "" then
      { s with transcriptions := s.transcriptions ++ [(Role.user, u), (Role.model, m)] }
    else s
  { s1 with transcription := ⟨"", ""⟩ }

/-- Embeds one `onmessage` invocation (VideoView.tsx lines 262-296),
branches in source order: audio scheduling, interruption, user fragment,
model fragment, turn completion. `now` is `outputAudioContext.currentTime`
when the audio branch runs and `sid` the fresh node identity. -/
def handleMessage (s : LiveState) (now : ℚ) (m : ServerMessage) (sid : ℕ) : LiveState :=
  let s1 :=
    match m.audioFrameCount with
    | some n => scheduleAudio s now ((n : ℚ) / 24000) sid
    | none => s
  let s2 := if m.interrupted then interruptPlayback s1 else s1
  let s3 :=
    match m.inputTranscription with
    | some t => { s2 with transcription := ⟨s2.transcription.user ++ t, s2.transcription.model⟩ }
    | none => s2
  let s4 :=
    match m.outputTranscription with
    | some t => { s3 with transcription := ⟨s3.transcription.user, s3.transcription.model ++ t⟩ }
    | none => s3
  if m.turnComplete then turnCompleteHandler s4 else s4

/-- Embeds `stopSession` (VideoView.tsx lines 208-219): close and null the
session ref if held, close and null the output audio context if held, clear
the active flag, zero the cursor. Nothing else is touched: the source set,
the transcript buffers, the microphone stream and the capture graph are all
left as they were. -/
def stopSession (s : LiveState) : LiveState :=
  { s with
    sessionOpen := false,
    audioContextOpen := false,
    isActive := false,
    nextStartTime := 0 }

/-- Embeds the resource acquisition of `startSession` (VideoView.tsx lines
221-310): output audio context created and stored, microphone stream
acquired, remote channel connected and stored. -/
def startSessionAcquire (s : LiveState) : LiveState :=
  { s with micHeld := true, audioContextOpen := true, sessionOpen := true }

/-- Embeds the `onopen` callback (VideoView.tsx lines 235-261): mark the
session active and wire the capture graph
(`source.connect(scriptProcessor); scriptProcessor.connect(...)`). -/
def onOpen (s : LiveState) : LiveState :=
  { s with isActive := true, captureConnected := true }

/-- Embeds one firing of `scriptProcessor.onaudioprocess` (VideoView.tsx
lines 242-257): whenever the capture graph is wired the handler runs and
unconditionally forwards the encoded frame through
`sessionPromise.then(session => session.sendRealtimeInput(...))` — there is
no guard on the session still being open. -/
def captureTick (s : LiveState) : LiveState :=
  if s.captureConnected then { s with outboundSends := s.outboundSends + 1 } else s

/-! ## Codec lemmas -/

theorem charSextet_sextetChar : ∀ n, n < 64 → charSextet (sextetChar n) = some n := by
  decide

theorem sextetChar_ne_pad : ∀ n, n < 64 → sextetChar n ≠ '=' := by
  decide

theorem b64decode_encode :
    ∀ bs : List ℕ, (∀ b ∈ bs, b < 256) → b64decode (b64encode bs) = some bs
  | [], _ => rfl
  | [a], h => by
      have ha : a < 256 := h a (by simp)
      have h0 : a / 4 < 64 := by omega
      have h1 : a % 4 * 16 < 64 := by omega
      simp only [b64encode, b64decode, charSextet_sextetChar _ h0,
        charSextet_sextetChar _ h1]
      norm_num
      omega
  | [a, b], h => by
      have ha : a < 256 := h a (by simp)
      have hb : b < 256 := h b (by simp)
      have h0 : a / 4 < 64 := by omega
      have h1 : a % 4 * 16 + b / 16 < 64 := by omega
      have h2 : b % 16 * 4 < 64 := by omega
      simp only [b64encode, b64decode, charSextet_sextetChar _ h0,
        charSextet_sextetChar _ h1, charSextet_sextetChar _ h2,
        sextetChar_ne_pad _ h2, false_and, if_false]
      norm_num
      omega
  | a :: b :: c :: rest, h => by
      have ha : a < 256 := h a (by simp)
      have hb : b < 256 := h b (by simp)
      have hc : c < 256 := h c (by simp)
      have ih := b64decode_encode rest (fun x hx => h x (by simp [hx]))
      have h0 : a / 4 < 64 := by omega
      have h1 : a % 4 * 16 + b / 16 < 64 := by omega
      have h2 : b % 16 * 4 + c / 64 < 64 := by omega
      have h3 : c % 64 < 64 := by omega
      simp only [b64encode, b64decode, charSextet_sextetChar _ h0,
        charSextet_sextetChar _ h1, charSextet_sextetChar _ h2,
        charSextet_sextetChar _ h3, sextetChar_ne_pad _ h2,
        sextetChar_ne_pad _ h3, false_and, and_false, if_false, ih]
      norm_num
      omega

theorem pairBytes_flatMap {α : Type} (f g : α → ℕ) :
    ∀ l : List α,
      pairBytes (l.flatMap (fun x => [f x, g x])) =
        some (l.map (fun x => (f x, g x)))
  | [] => rfl
  | x :: xs => by
      have ih := pairBytes_flatMap f g xs
      have hcons : (x :: xs).flatMap (fun y => [f y, g y]) =
          f x :: g x :: xs.flatMap (fun y => [f y, g y]) := by
        simp
      rw [hcons]
      simp only [pairBytes, ih, Option.map_some, Option.map_some', List.map_cons]

theorem int16LE_bytes_lt (i : ℤ) : ∀ b ∈ int16LE i, b < 256 := by
  intro b hb
  have h1 : 0 ≤ i % 65536 := Int.emod_nonneg i (by norm_num)
  have h2 : i % 65536 < 65536 := Int.emod_lt_of_pos i (by norm_num)
  simp only [int16LE, List.mem_cons, List.mem_singleton] at hb
  rcases hb with h | h | h
  · omega
  · omega
  · cases h

theorem u2i_int16LE (i : ℤ) (hlo : -32768 ≤ i) (hhi : i < 32768) :
    u2i ((i % 65536).toNat % 256 + 256 * ((i % 65536).toNat / 256)) = i := by
  have h1 : 0 ≤ i % 65536 := Int.emod_nonneg i (by norm_num)
  have h2 : i % 65536 < 65536 := Int.emod_lt_of_pos i (by norm_num)
  unfold u2i
  split <;> omega

theorem quantize_of_lt_one (x : ℚ) (hlo : -1 ≤ x) (hhi : x < 1) :
    quantize x = truncQ (x * 32768) ∧
    -32768 ≤ quantize x ∧ quantize x < 32768 ∧
    |x * 32768 - (quantize x : ℚ)| < 1 := by
  have hq0 : (-32768 : ℚ) ≤ x * 32768 := by nlinarith
  have hq1 : x * 32768 < 32768 := by nlinarith
  have htr : -32768 ≤ truncQ (x * 32768) ∧ truncQ (x * 32768) < 32768 := by
    unfold truncQ
    split
    · rename_i hpos
      constructor
      · have h : (0 : ℤ) ≤ ⌊x * 32768⌋ := Int.floor_nonneg.mpr hpos
        omega
      · have hle := Int.floor_le (x * 32768)
        have h : ((⌊x * 32768⌋ : ℤ) : ℚ) < 32768 := lt_of_le_of_lt hle hq1
        exact_mod_cast h
    · rename_i hneg
      push_neg at hneg
      constructor
      · have h : ((-32768 : ℤ) : ℚ) ≤ (⌈x * 32768⌉ : ℚ) :=
          le_trans (by exact_mod_cast hq0) (Int.le_ceil _)
        exact_mod_cast h
      · have h : ⌈x * 32768⌉ ≤ ⌈(0 : ℚ)⌉ := Int.ceil_le_ceil (le_of_lt hneg)
        rw [Int.ceil_zero] at h
        omega
  have hid : quantize x = truncQ (x * 32768) := by
    obtain ⟨hA, hB⟩ := htr
    unfold quantize toInt16
    split <;> omega
  refine ⟨hid, by omega, by omega, ?_⟩
  rw [hid]
  unfold truncQ
  split
  · have h1 := Int.floor_le (x * 32768)
    have h2 := Int.lt_floor_add_one (x * 32768)
    rw [abs_sub_lt_iff]
    constructor <;> linarith
  · have h1 := Int.le_ceil (x * 32768)
    have h2 := Int.ceil_lt_add_one (x * 32768)
    rw [abs_sub_lt_iff]
    constructor <;> linarith

theorem dequant_error (x : ℚ) (hlo : -1 ≤ x) (hhi : x < 1) :
    |x - (quantize x : ℚ) / 32768| < 1 / 32768 := by
  obtain ⟨-, -, -, herr⟩ := quantize_of_lt_one x hlo hhi
  have h32 : (0 : ℚ) < 32768 := by norm_num
  have heq : x - (quantize x : ℚ) / 32768 = (x * 32768 - (quantize x : ℚ)) / 32768 := by
    field_simp
  rw [heq, abs_div, abs_of_pos h32, div_lt_div_iff₀ h32 h32]
  linarith

theorem quantize_one : quantize 1 = -32768 := by
  norm_num [quantize, truncQ, toInt16]

theorem quantize_three_div : quantize (3 / 65536) = 1 := by
  norm_num [quantize, truncQ, toInt16]

theorem specQuantize_one : specQuantizeRoundClamp 1 = 32767 := by
  norm_num [specQuantizeRoundClamp, round_eq]

theorem specQuantize_three_div : specQuantizeRoundClamp (3 / 65536) = 2 := by
  norm_num [specQuantizeRoundClamp, round_eq]

theorem roundTrip_eq (samples : List ℚ) :
    roundTrip samples =
      some (samples.map (fun x =>
        (u2i ((quantize x % 65536).toNat % 256 +
          256 * ((quantize x % 65536).toNat / 256)) : ℚ) / 32768)) := by
  unfold roundTrip encodeOutbound
  rw [b64decode_encode _ (by
    intro b hb
    simp only [List.mem_flatMap] at hb
    obtain ⟨x, -, hbx⟩ := hb
    exact int16LE_bytes_lt _ b hbx)]
  simp only [int16LE, Option.some_bind, reconstructAudio]
  rw [pairBytes_flatMap (fun x => (quantize x % 65536).toNat % 256)
    (fun x => (quantize x % 65536).toNat / 256)]
  simp [List.map_map, Function.comp]

/-! ## Claim theorems -/

/-- C1: every frame passed to the scheduler starts at
`max(cursor, clockNow())`, is enqueued at that start time, and the cursor
advances to `startTime + duration`; consequently frames of durations
[1.0s, 0.5s, 2.0s] scheduled back-to-back — each call made before the
previous frame's end — start at [t0, t0 + 1.0, t0 + 1.5] with no gaps and
no overlap, regardless of the wall-clock times of the calls. -/
theorem c1_schedule_gap_free (s : LiveState) (now1 now2 now3 dur : ℚ)
    (i1 i2 i3 : ℕ)
    (h2 : now2 ≤ max s.nextStartTime now1 + 1)
    (h3 : now3 ≤ max s.nextStartTime now1 + 3 / 2) :
    startTime s now1 = max s.nextStartTime now1 ∧
    (scheduleAudio s now1 dur i1).nextStartTime = startTime s now1 + dur ∧
    (scheduleAudio s now1 dur i1).sources =
      s.sources ++ [⟨i1, startTime s now1, dur⟩] ∧
    startTime (scheduleAudio s now1 1 i1) now2 = max s.nextStartTime now1 + 1 ∧
    startTime (scheduleAudio (scheduleAudio s now1 1 i1) now2 (1 / 2) i2) now3 =
      max s.nextStartTime now1 + 3 / 2 ∧
    (scheduleAudio (scheduleAudio (scheduleAudio s now1 1 i1) now2 (1 / 2) i2)
        now3 2 i3).nextStartTime = max s.nextStartTime now1 + 7 / 2 := by
  have e1 : startTime (scheduleAudio s now1 1 i1) now2 =
      max s.nextStartTime now1 + 1 := by
    show max (max s.nextStartTime now1 + 1) now2 = max s.nextStartTime now1 + 1
    exact max_eq_left h2
  have e2 : startTime (scheduleAudio (scheduleAudio s now1 1 i1) now2 (1 / 2) i2) now3 =
      max s.nextStartTime now1 + 3 / 2 := by
    show max (max (max s.nextStartTime now1 + 1) now2 + 1 / 2) now3 =
      max s.nextStartTime now1 + 3 / 2
    rw [max_eq_left h2,
      show max s.nextStartTime now1 + 1 + 1 / 2 = max s.nextStartTime now1 + 3 / 2 from by ring]
    exact max_eq_left h3
  have e3 : (scheduleAudio (scheduleAudio (scheduleAudio s now1 1 i1) now2 (1 / 2) i2)
      now3 2 i3).nextStartTime =
      startTime (scheduleAudio (scheduleAudio s now1 1 i1) now2 (1 / 2) i2) now3 + 2 := rfl
  refine ⟨rfl, rfl, rfl, e1, e2, ?_⟩
  rw [e3, e2]
  ring

/-- C1 witness: the gap-free schedule evaluated from the idle state with
call clocks 0, 1/2 and 5/4, giving start times 0, 1 and 3/2 and final
cursor 7/2. -/
theorem c1_schedule_gap_free_witness :
    startTime initialState 0 = max initialState.nextStartTime 0 ∧
    (scheduleAudio initialState 0 1 0).nextStartTime = startTime initialState 0 + 1 ∧
    (scheduleAudio initialState 0 1 0).sources =
      initialState.sources ++ [⟨0, startTime initialState 0, 1⟩] ∧
    startTime (scheduleAudio initialState 0 1 0) (1 / 2) =
      max initialState.nextStartTime 0 + 1 ∧
    startTime (scheduleAudio (scheduleAudio initialState 0 1 0) (1 / 2) (1 / 2) 1)
        (5 / 4) = max initialState.nextStartTime 0 + 3 / 2 ∧
    (scheduleAudio (scheduleAudio (scheduleAudio initialState 0 1 0) (1 / 2) (1 / 2) 1)
        (5 / 4) 2 2).nextStartTime = max initialState.nextStartTime 0 + 7 / 2 :=
  c1_schedule_gap_free initialState 0 (1 / 2) (5 / 4) 1 0 1 2
    (by norm_num [initialState]) (by norm_num [initialState])

/-- C2: handling an interruption message stops every active source, leaves
the active set empty and the cursor at zero, and a subsequent schedule call
starts at the clock's current time instead of the pre-interrupt cursor. -/
theorem c2_interrupt_resets (s : LiveState) (now now' : ℚ) (sid : ℕ)
    (hnow : 0 ≤ now') :
    (handleMessage s now ⟨none, true, none, none, false⟩ sid).sources = [] ∧
    (handleMessage s now ⟨none, true, none, none, false⟩ sid).nextStartTime = 0 ∧
    (handleMessage s now ⟨none, true, none, none, false⟩ sid).stopped =
      s.stopped ++ s.sources.map Source.sid ∧
    startTime (handleMessage s now ⟨none, true, none, none, false⟩ sid) now' = now' := by
  have hred : handleMessage s now ⟨none, true, none, none, false⟩ sid =
      interruptPlayback s := rfl
  rw [hred]
  refine ⟨rfl, rfl, rfl, ?_⟩
  simp only [startTime, interruptPlayback]
  exact max_eq_right hnow

/-- C2 witness: interrupting a session with one scheduled source (id 7)
empties the set, records the stop, zeroes the cursor and makes the next
start time the clock time 3. -/
theorem c2_interrupt_resets_witness :
    (handleMessage (scheduleAudio initialState 0 1 7) 2
        ⟨none, true, none, none, false⟩ 9).sources = [] ∧
    (handleMessage (scheduleAudio initialState 0 1 7) 2
        ⟨none, true, none, none, false⟩ 9).nextStartTime = 0 ∧
    (handleMessage (scheduleAudio initialState 0 1 7) 2
        ⟨none, true, none, none, false⟩ 9).stopped =
      (scheduleAudio initialState 0 1 7).stopped ++
        (scheduleAudio initialState 0 1 7).sources.map Source.sid ∧
    startTime (handleMessage (scheduleAudio initialState 0 1 7) 2
        ⟨none, true, none, none, false⟩ 9) 3 = 3 :=
  c2_interrupt_resets (scheduleAudio initialState 0 1 7) 2 3 9 (by norm_num)

/-- C5: on a turn-complete message with at least one non-empty buffer, the
pair of current buffer contents is appended to the turn history as one
turn (one user entry and one model entry) and both buffers are cleared; a
turn-complete with both buffers empty emits nothing; and a second flush
immediately after a flush emits nothing. -/
theorem c5_turn_complete (s t : LiveState) (now now' now'' : ℚ) (i1 i2 i3 : ℕ)
    (h : s.transcription.user ≠ "" ∨ s.transcription.model ≠ "")
    (htu : t.transcription.user = "") (htm : t.transcription.model = "") :
    (handleMessage s now ⟨none, false, none, none, true⟩ i1).transcriptions =
      s.transcriptions ++
        [(Role.user, s.transcription.user), (Role.model, s.transcription.model)] ∧
    (handleMessage s now ⟨none, false, none, none, true⟩ i1).transcription =
      ⟨"", ""⟩ ∧
    (handleMessage t now'' ⟨none, false, none, none, true⟩ i3).transcriptions =
      t.transcriptions ∧
    (handleMessage (handleMessage s now ⟨none, false, none, none, true⟩ i1) now'
        ⟨none, false, none, none, true⟩ i2).transcriptions =
      (handleMessage s now ⟨none, false, none, none, true⟩ i1).transcriptions := by
  have hred : ∀ (st : LiveState) (nw : ℚ) (j : ℕ),
      handleMessage st nw ⟨none, false, none, none, true⟩ j =
        turnCompleteHandler st := fun _ _ _ => rfl
  simp only [hred]
  refine ⟨?_, rfl, ?_, ?_⟩
  · simp only [turnCompleteHandler]
    rw [if_pos h]
  · simp only [turnCompleteHandler]
    rw [if_neg]
    simp [htu, htm]
  · simp only [turnCompleteHandler]
    split
    · rename_i hcond
      rcases hcond with hc | hc <;> simp at hc
    · rfl

/-- C5 witness: appending fragments "hel" and "lo" for the user and "hi"
for the model, then flushing, appends the turn ("hello", "hi") and clears
the buffers; flushing the idle state or flushing twice emits nothing. -/
theorem c5_turn_complete_witness :
    (handleMessage
        (handleMessage (handleMessage (handleMessage initialState 0
            ⟨none, false, some "hel", none, false⟩ 0) 0
            ⟨none, false, some "lo", none, false⟩ 0) 0
            ⟨none, false, none, some "hi", false⟩ 0) 0
        ⟨none, false, none, none, true⟩ 0).transcriptions =
      (handleMessage (handleMessage (handleMessage initialState 0
            ⟨none, false, some "hel", none, false⟩ 0) 0
            ⟨none, false, some "lo", none, false⟩ 0) 0
            ⟨none, false, none, some "hi", false⟩ 0).transcriptions ++
        [(Role.user, (handleMessage (handleMessage (handleMessage initialState 0
            ⟨none, false, some "hel", none, false⟩ 0) 0
            ⟨none, false, some "lo", none, false⟩ 0) 0
            ⟨none, false, none, some "hi", false⟩ 0).transcription.user),
         (Role.model, (handleMessage (handleMessage (handleMessage initialState 0
            ⟨none, false, some "hel", none, false⟩ 0) 0
            ⟨none, false, some "lo", none, false⟩ 0) 0
            ⟨none, false, none, some "hi", false⟩ 0).transcription.model)] ∧
    (handleMessage
        (handleMessage (handleMessage (handleMessage initialState 0
            ⟨none, false, some "hel", none, false⟩ 0) 0
            ⟨none, false, some "lo", none, false⟩ 0) 0
            ⟨none, false, none, some "hi", false⟩ 0) 0
        ⟨none, false, none, none, true⟩ 0).transcription = ⟨"", ""⟩ ∧
    (handleMessage initialState 0 ⟨none, false, none, none, true⟩ 0).transcriptions =
      initialState.transcriptions ∧
    (handleMessage (handleMessage
        (handleMessage (handleMessage (handleMessage initialState 0
            ⟨none, false, some "hel", none, false⟩ 0) 0
            ⟨none, false, some "lo", none, false⟩ 0) 0
            ⟨none, false, none, some "hi", false⟩ 0) 0
        ⟨none, false, none, none, true⟩ 0) 0
        ⟨none, false, none, none, true⟩ 0).transcriptions =
      (handleMessage
        (handleMessage (handleMessage (handleMessage initialState 0
            ⟨none, false, some "hel", none, false⟩ 0) 0
            ⟨none, false, some "lo", none, false⟩ 0) 0
            ⟨none, false, none, some "hi", false⟩ 0) 0
        ⟨none, false, none, none, true⟩ 0).transcriptions :=
  c5_turn_complete
    (handleMessage (handleMessage (handleMessage initialState 0
        ⟨none, false, some "hel", none, false⟩ 0) 0
        ⟨none, false, some "lo", none, false⟩ 0) 0
        ⟨none, false, none, some "hi", false⟩ 0)
    initialState 0 0 0 0 0 0 (by decide) (by decide) (by decide)

/-- C7: `stopSession` is idempotent — running it twice equals running it
once, and running it from the idle state leaves the state exactly idle, so
stopping an already-stopped session is a no-op and never an error (the
handler is total and guards both nullable refs before closing them). -/
theorem c7_stop_idempotent :
    (∀ s : LiveState, stopSession (stopSession s) = stopSession s) ∧
    stopSession initialState = initialState :=
  ⟨fun _ => rfl, rfl⟩

/-- C10: a pure interruption message changes only the scheduled-playback
set (emptied, its members stopped) and the playback cursor (zeroed); both
per-speaker transcript buffers and the turn history survive unchanged, and
the surviving fragments are exactly what the next turn-complete emits. -/
theorem c10_interrupt_preserves_transcripts (s : LiveState) (now now' : ℚ)
    (i1 i2 : ℕ)
    (h : s.transcription.user ≠ "" ∨ s.transcription.model ≠ "") :
    (handleMessage s now ⟨none, true, none, none, false⟩ i1).transcription =
      s.transcription ∧
    (handleMessage s now ⟨none, true, none, none, false⟩ i1).transcriptions =
      s.transcriptions ∧
    (handleMessage s now ⟨none, true, none, none, false⟩ i1).sessionOpen =
      s.sessionOpen ∧
    (handleMessage s now ⟨none, true, none, none, false⟩ i1).audioContextOpen =
      s.audioContextOpen ∧
    (handleMessage s now ⟨none, true, none, none, false⟩ i1).isActive = s.isActive ∧
    (handleMessage s now ⟨none, true, none, none, false⟩ i1).micHeld = s.micHeld ∧
    (handleMessage s now ⟨none, true, none, none, false⟩ i1).captureConnected =
      s.captureConnected ∧
    (handleMessage s now ⟨none, true, none, none, false⟩ i1).outboundSends =
      s.outboundSends ∧
    (handleMessage s now ⟨none, true, none, none, false⟩ i1).sources = [] ∧
    (handleMessage s now ⟨none, true, none, none, false⟩ i1).nextStartTime = 0 ∧
    (handleMessage (handleMessage s now ⟨none, true, none, none, false⟩ i1) now'
        ⟨none, false, none, none, true⟩ i2).transcriptions =
      s.transcriptions ++
        [(Role.user, s.transcription.user), (Role.model, s.transcription.model)] := by
  have hred : handleMessage s now ⟨none, true, none, none, false⟩ i1 =
      interruptPlayback s := rfl
  have hred2 : ∀ (st : LiveState) (nw : ℚ) (j : ℕ),
      handleMessage st nw ⟨none, false, none, none, true⟩ j =
        turnCompleteHandler st := fun _ _ _ => rfl
  simp only [hred, hred2]
  refine ⟨rfl, rfl, rfl, rfl, rfl, rfl, rfl, rfl, rfl, rfl, ?_⟩
  simp only [turnCompleteHandler, interruptPlayback]
  rw [if_pos h]

/-- C10 witness: a barge-in arriving while the buffers hold ("par", "tial")
leaves both fragments in place, and the following turn-complete emits
exactly the turn ("par", "tial"). -/
theorem c10_interrupt_preserves_transcripts_witness :
    (handleMessage (handleMessage (handleMessage initialState 0
          ⟨none, false, some "par", none, false⟩ 0) 0
          ⟨none, false, none, some "tial", false⟩ 0) 0
        ⟨none, true, none, none, false⟩ 1).transcription =
      (handleMessage (handleMessage initialState 0
          ⟨none, false, some "par", none, false⟩ 0) 0
          ⟨none, false, none, some "tial", false⟩ 0).transcription ∧
    (handleMessage (handleMessage (handleMessage initialState 0
          ⟨none, false, some "par", none, false⟩ 0) 0
          ⟨none, false, none, some "tial", false⟩ 0) 0
        ⟨none, true, none, none, false⟩ 1).transcriptions =
      (handleMessage (handleMessage initialState 0
          ⟨none, false, some "par", none, false⟩ 0) 0
          ⟨none, false, none, some "tial", false⟩ 0).transcriptions ∧
    (handleMessage (handleMessage (handleMessage initialState 0
          ⟨none, false, some "par", none, false⟩ 0) 0
          ⟨none, false, none, some "tial", false⟩ 0) 0
        ⟨none, true, none, none, false⟩ 1).sessionOpen =
      (handleMessage (handleMessage initialState 0
          ⟨none, false, some "par", none, false⟩ 0) 0
          ⟨none, false, none, some "tial", false⟩ 0).sessionOpen ∧
    (handleMessage (handleMessage (handleMessage initialState 0
          ⟨none, false, some "par", none, false⟩ 0) 0
          ⟨none, false, none, some "tial", false⟩ 0) 0
        ⟨none, true, none, none, false⟩ 1).audioContextOpen =
      (handleMessage (handleMessage initialState 0
          ⟨none, false, some "par", none, false⟩ 0) 0
          ⟨none, false, none, some "tial", false⟩ 0).audioContextOpen ∧
    (handleMessage (handleMessage (handleMessage initialState 0
          ⟨none, false, some "par", none, false⟩ 0) 0
          ⟨none, false, none, some "tial", false⟩ 0) 0
        ⟨none, true, none, none, false⟩ 1).isActive =
      (handleMessage (handleMessage initialState 0
          ⟨none, false, some "par", none, false⟩ 0) 0
          ⟨none, false, none, some "tial", false⟩ 0).isActive ∧
    (handleMessage (handleMessage (handleMessage initialState 0
          ⟨none, false, some "par", none, false⟩ 0) 0
          ⟨none, false, none, some "tial", false⟩ 0) 0
        ⟨none, true, none, none, false⟩ 1).micHeld =
      (handleMessage (handleMessage initialState 0
          ⟨none, false, some "par", none, false⟩ 0) 0
          ⟨none, false, none, some "tial", false⟩ 0).micHeld ∧
    (handleMessage (handleMessage (handleMessage initialState 0
          ⟨none, false, some "par", none, false⟩ 0) 0
          ⟨none, false, none, some "tial", false⟩ 0) 0
        ⟨none, true, none, none, false⟩ 1).captureConnected =
      (handleMessage (handleMessage initialState 0
          ⟨none, false, some "par", none, false⟩ 0) 0
          ⟨none, false, none, some "tial", false⟩ 0).captureConnected ∧
    (handleMessage (handleMessage (handleMessage initialState 0
          ⟨none, false, some "par", none, false⟩ 0) 0
          ⟨none, false, none, some "tial", false⟩ 0) 0
        ⟨none, true, none, none, false⟩ 1).outboundSends =
      (handleMessage (handleMessage initialState 0
          ⟨none, false, some "par", none, false⟩ 0) 0
          ⟨none, false, none, some "tial", false⟩ 0).outboundSends ∧
    (handleMessage (handleMessage (handleMessage initialState 0
          ⟨none, false, some "par", none, false⟩ 0) 0
          ⟨none, false, none, some "tial", false⟩ 0) 0
        ⟨none, true, none, none, false⟩ 1).sources = [] ∧
    (handleMessage (handleMessage (handleMessage initialState 0
          ⟨none, false, some "par", none, false⟩ 0) 0
          ⟨none, false, none, some "tial", false⟩ 0) 0
        ⟨none, true, none, none, false⟩ 1).nextStartTime = 0 ∧
    (handleMessage (handleMessage (handleMessage (handleMessage initialState 0
          ⟨none, false, some "par", none, false⟩ 0) 0
          ⟨none, false, none, some "tial", false⟩ 0) 0
        ⟨none, true, none, none, false⟩ 1) 0
        ⟨none, false, none, none, true⟩ 2).transcriptions =
      (handleMessage (handleMessage initialState 0
          ⟨none, false, some "par", none, false⟩ 0) 0
          ⟨none, false, none, some "tial", false⟩ 0).transcriptions ++
        [(Role.user, (handleMessage (handleMessage initialState 0
            ⟨none, false, some "par", none, false⟩ 0) 0
            ⟨none, false, none, some "tial", false⟩ 0).transcription.user),
         (Role.model, (handleMessage (handleMessage initialState 0
            ⟨none, false, some "par", none, false⟩ 0) 0
            ⟨none, false, none, some "tial", false⟩ 0).transcription.model)] :=
  c10_interrupt_preserves_transcripts
    (handleMessage (handleMessage initialState 0
        ⟨none, false, some "par", none, false⟩ 0) 0
        ⟨none, false, none, some "tial", false⟩ 0) 0 0 1 2 (by decide)

/-- C3 counterexample: the in-range sample 1.0 does not round-trip within
1/32768 — encoding and decoding it yields -1.0, an error of 2, because the
capture quantization wraps 1.0 * 32768 around to -32768. -/
theorem c3_roundtrip_counterexample :
    roundTrip [(1 : ℚ)] = some [(-1 : ℚ)] ∧
    ¬ |(1 : ℚ) - (-1 : ℚ)| ≤ 1 / 32768 := by
  constructor
  · rw [roundTrip_eq]
    simp only [List.map_cons, List.map_nil, quantize_one]
    norm_num [u2i]
    rw [show (32768 : ℤ).toNat = 32768 from rfl]
    norm_num
  · norm_num

/-- C3 amended: for every sample sequence with all values in [-1.0, 1.0),
reconstructing the decoded wire bytes of the encoded samples succeeds and
differs from the original by less than 1/32768 per sample; the endpoint
1.0 itself wraps to -1.0 instead. -/
theorem c3_roundtrip_amended (samples : List ℚ)
    (h : ∀ x ∈ samples, -1 ≤ x ∧ x < 1) :
    ∃ out, roundTrip samples = some out ∧
      List.Forall₂ (fun x y => |x - y| < 1 / 32768) samples out := by
  refine ⟨_, roundTrip_eq samples, ?_⟩
  rw [List.forall₂_map_right_iff]
  rw [List.forall₂_same]
  intro x hx
  obtain ⟨hlo, hhi⟩ := h x hx
  obtain ⟨-, hq1, hq2, -⟩ := quantize_of_lt_one x hlo hhi
  rw [u2i_int16LE (quantize x) hq1 hq2]
  exact dequant_error x hlo hhi

/-- C3 amended witness: the frame [1/2, -1/4, 0] round-trips with
per-sample error below 1/32768. -/
theorem c3_roundtrip_amended_witness :
    ∃ out, roundTrip [(1 : ℚ) / 2, -(1 : ℚ) / 4, 0] = some out ∧
      List.Forall₂ (fun x y => |x - y| < 1 / 32768)
        [(1 : ℚ) / 2, -(1 : ℚ) / 4, 0] out :=
  c3_roundtrip_amended [(1 : ℚ) / 2, -(1 : ℚ) / 4, 0] (by norm_num)

/-- C4 counterexample: the capture quantization neither rounds nor clamps —
at the in-range sample 1.0 it wraps to -32768 where round-and-clamp gives
32767, and at 3/65536 (whose scaled value is 1.5) it truncates to 1 where
rounding gives 2. -/
theorem c4_quantize_counterexample :
    quantize 1 = -32768 ∧ specQuantizeRoundClamp 1 = 32767 ∧
    quantize 1 ≠ specQuantizeRoundClamp 1 ∧
    quantize (3 / 65536) = 1 ∧ specQuantizeRoundClamp (3 / 65536) = 2 := by
  refine ⟨quantize_one, specQuantize_one, ?_, quantize_three_div,
    specQuantize_three_div⟩
  rw [quantize_one, specQuantize_one]
  decide

/-- C4 amended: `encodeOutbound` quantizes each sample by truncating
x * 32768 toward zero and reducing modulo 2^16 into [-32768, 32767] — for
samples in [-1.0, 1.0) this stays within one quantization step of the true
value and does not wrap, but 1.0 wraps to -32768 and fractions are
truncated, not rounded — and serializes the integers little-endian before
a reversible base64 encoding. -/
theorem c4_quantize_amended (x : ℚ) (samples : List ℚ)
    (hlo : -1 ≤ x) (hhi : x < 1) :
    quantize x = truncQ (x * 32768) ∧
    -32768 ≤ quantize x ∧ quantize x < 32768 ∧
    |x * 32768 - (quantize x : ℚ)| < 1 ∧
    quantize 1 = -32768 ∧
    b64decode (encodeOutbound samples) =
      some (samples.flatMap (fun y => int16LE (quantize y))) := by
  obtain ⟨h1, h2, h3, h4⟩ := quantize_of_lt_one x hlo hhi
  refine ⟨h1, h2, h3, h4, quantize_one, ?_⟩
  unfold encodeOutbound
  refine b64decode_encode _ ?_
  intro b hb
  simp only [List.mem_flatMap] at hb
  obtain ⟨y, -, hby⟩ := hb
  exact int16LE_bytes_lt _ b hby

/-- C4 amended witness: the amended quantization contract evaluated at the
sample 1/2 and the one-sample frame [1/2]. -/
theorem c4_quantize_amended_witness :
    quantize (1 / 2) = truncQ ((1 / 2 : ℚ) * 32768) ∧
    -32768 ≤ quantize (1 / 2 : ℚ) ∧ quantize (1 / 2 : ℚ) < 32768 ∧
    |(1 / 2 : ℚ) * 32768 - (quantize (1 / 2 : ℚ) : ℚ)| < 1 ∧
    quantize 1 = -32768 ∧
    b64decode (encodeOutbound [(1 / 2 : ℚ)]) =
      some ([(1 / 2 : ℚ)].flatMap (fun y => int16LE (quantize y))) :=
  c4_quantize_amended (1 / 2) [(1 / 2 : ℚ)] (by norm_num) (by norm_num)

/-- C6 counterexample: tearing down a session that holds a scheduled source
and partial transcript fragments leaves the scheduled set non-empty, the
transcript buffers non-empty and the capture graph wired — `stopSession`
clears none of them. -/
theorem c6_teardown_counterexample :
    (stopSession (handleMessage (onOpen (startSessionAcquire initialState)) 0
        ⟨some 24000, false, some "a", some "b", false⟩ 0)).transcription ≠
      ⟨"", ""⟩ ∧
    (stopSession (handleMessage (onOpen (startSessionAcquire initialState)) 0
        ⟨some 24000, false, some "a", some "b", false⟩ 0)).sources ≠ [] ∧
    (stopSession (handleMessage (onOpen (startSessionAcquire initialState)) 0
        ⟨some 24000, false, some "a", some "b", false⟩ 0)).captureConnected =
      true := by
  refine ⟨by decide, by decide, by decide⟩

/-- C6 amended: teardown releases the remote channel, closes the playback
audio context (so nothing remains audible), clears the active flag and
resets the playback cursor to zero; it does not stop the capture pipeline,
does not clear the scheduled-playback set, and does not reset the
per-speaker transcript buffers. -/
theorem c6_teardown_amended (s : LiveState) :
    (stopSession s).sessionOpen = false ∧
    (stopSession s).audioContextOpen = false ∧
    (stopSession s).isActive = false ∧
    (stopSession s).nextStartTime = 0 ∧
    (stopSession s).transcription = s.transcription ∧
    (stopSession s).transcriptions = s.transcriptions ∧
    (stopSession s).sources = s.sources ∧
    (stopSession s).captureConnected = s.captureConnected ∧
    (stopSession s).micHeld = s.micHeld :=
  ⟨rfl, rfl, rfl, rfl, rfl, rfl, rfl, rfl, rfl⟩

/-- C8 counterexample: `stopSession` — an operation other than the
interruption handler — lowers the playback cursor (from 6 to 0 after a
frame of duration 1 is scheduled at clock time 5), so the cursor is not
non-decreasing across all operations except `interrupt()`. -/
theorem c8_cursor_counterexample :
    (stopSession (scheduleAudio initialState 5 1 0)).nextStartTime <
      (scheduleAudio initialState 5 1 0).nextStartTime := by
  show (0 : ℚ) < max 0 5 + 1
  norm_num

/-- C8 amended: the playback cursor never decreases under message handling,
source completion or capture, except that the interruption handler and
session teardown (`stopSession`) each reset it to zero; and a scheduled
start time is never below the audio clock's current time. -/
theorem c8_cursor_amended (s : LiveState) (now : ℚ) (m : ServerMessage)
    (sid j : ℕ) :
    (m.interrupted = false → s.nextStartTime ≤ (handleMessage s now m sid).nextStartTime) ∧
    (m.interrupted = true → (handleMessage s now m sid).nextStartTime = 0) ∧
    (stopSession s).nextStartTime = 0 ∧
    (onEnded s j).nextStartTime = s.nextStartTime ∧
    (captureTick s).nextStartTime = s.nextStartTime ∧
    now ≤ startTime s now := by
  obtain ⟨audio, intr, inT, outT, tc⟩ := m
  refine ⟨?_, ?_, rfl, rfl, ?_, le_max_right _ _⟩
  · intro hi
    subst hi
    have hcur : ∀ st : LiveState,
        (handleMessage st now ⟨audio, false, inT, outT, tc⟩ sid).nextStartTime =
          (match audio with
            | some n => scheduleAudio st now ((n : ℚ) / 24000) sid
            | none => st).nextStartTime := by
      intro st
      cases audio <;> cases inT <;> cases outT <;> cases tc <;>
        simp [handleMessage, turnCompleteHandler, apply_ite]
    rw [hcur]
    cases audio with
    | none => exact le_refl _
    | some n =>
        show s.nextStartTime ≤ max s.nextStartTime now + (n : ℚ) / 24000
        have hd : (0 : ℚ) ≤ (n : ℚ) / 24000 := by positivity
        have := le_max_left s.nextStartTime now
        linarith
  · intro hi
    subst hi
    cases audio <;> cases inT <;> cases outT <;> cases tc <;>
      simp [handleMessage, interruptPlayback, scheduleAudio, turnCompleteHandler,
        apply_ite]
  · unfold captureTick
    split <;> rfl

/-- C8 amended witness: from the idle state, handling an audio-free message
does not lower the cursor and handling an interruption zeroes it. -/
theorem c8_cursor_amended_witness :
    (initialState.nextStartTime ≤
      (handleMessage initialState 3 ⟨some 24000, false, none, none, false⟩ 0).nextStartTime) ∧
    (handleMessage initialState 3 ⟨none, true, none, none, false⟩ 0).nextStartTime = 0 :=
  ⟨(c8_cursor_amended initialState 3 ⟨some 24000, false, none, none, false⟩ 0 0).1 rfl,
   (c8_cursor_amended initialState 3 ⟨none, true, none, none, false⟩ 0 0).2.1 rfl⟩

/-- C9: contrary to the spec's cancellation contract, after `stopSession`
returns the microphone is still held, the capture graph is still wired, a
subsequent capture callback still attempts an outbound send on the closed
channel, and a late-arriving decoded audio frame is still scheduled —
nothing is discarded. This exhibits the code bug at its failing input. -/
theorem c9_stop_leaves_capture_running :
    (stopSession (onOpen (startSessionAcquire initialState))).micHeld = true ∧
    (stopSession (onOpen (startSessionAcquire initialState))).captureConnected =
      true ∧
    (captureTick (stopSession (onOpen (startSessionAcquire initialState)))).outboundSends =
      (stopSession (onOpen (startSessionAcquire initialState))).outboundSends + 1 ∧
    (handleMessage (stopSession (onOpen (startSessionAcquire initialState))) 0
        ⟨some 24000, false, none, none, false⟩ 1).sources.length = 1 := by
  refine ⟨by decide, by decide, by decide, by decide⟩

end Aura
